import Mathlib

set_option autoImplicit false

/-!
Verification of the conwayste repository: a shallow embedding of the chatbox
widget logic (src/conwayste/src/ui/chatbox.rs) and of the netwaystev2 filter
layer (whose implementation is exercised by
src/netwaystev2/src/filter/tests/time_advance_tests.rs), together with proofs
of the specified properties.
-/

namespace Conwayste

/-- Font metrics used by the chatbox, from the `FontInfo` struct referenced in
src/conwayste/src/ui/chatbox.rs (only `char_dimensions` is used by the chatbox
logic; the `f32` components are modelled as rationals). -/
structure FontInfo where
  char_width : Rat
  char_height : Rat
deriving DecidableEq

/-- Rectangle as used by `Chatbox` (ggez `Rect`, fields modelled as rationals). -/
structure Rect where
  x : Rat
  y : Rat
  w : Rat
  h : Rat
deriving DecidableEq

/-- The UI error variant produced by `Chatbox::set_size`. -/
inductive UIError where
  | invalidDimensions (reason : String)
deriving DecidableEq

/-- The chatbox widget state, from `struct Chatbox` in
src/conwayste/src/ui/chatbox.rs. Render-only fields (`id`, `color`, `hover`,
`action`) are omitted; a wrapped `Text` is modelled by its string contents. -/
structure Chatbox where
  history_lines : Nat
  messages : List String
  wrapped : List (Bool × String)
  dimensions : Rect
  font_info : FontInfo
deriving DecidableEq

/-- From `Chatbox::count_chars`: the number of characters of a string. -/
def Chatbox.count_chars (msg : String) : Nat :=
  msg.toList.length

/-- One character step of Rust `str::split_whitespace`: starts a new group at a
whitespace character, otherwise extends the current first group. -/
def split_ws_step (c : Char) (acc : List (List Char)) : List (List Char) :=
  if c.isWhitespace then [] :: acc
  else
    match acc with
    | [] => [[c]]
    | w :: ws => (c :: w) :: ws

/-- Rust `str::split_whitespace`: the whitespace-separated words of a string,
with empty groups dropped. -/
def split_whitespace (msg : String) : List String :=
  ((msg.toList.foldr split_ws_step []).filter (fun w => w ≠ [])).map List.asString

/-- Accumulator of the wrapping loop in `Chatbox::reflow_message`: the segments
emitted so far, the segment under construction, and the `chars_added` counter. -/
structure ReflowAcc where
  texts : List (Bool × String)
  s : String
  chars_added : Nat
deriving DecidableEq

/-- Body of the `for ch in word.chars()` loop in the long-word branch of
`Chatbox::reflow_message`. -/
def reflow_long_char (max_chars : Nat) (acc : ReflowAcc) (ch : Char) : ReflowAcc :=
  let acc :=
    if acc.chars_added = max_chars then
      ReflowAcc.mk (acc.texts ++ [(true, acc.s)]) "" 0
    else acc
  ReflowAcc.mk acc.texts (acc.s.push ch) (acc.chars_added + 1)

/-- Body of the `for word in msg.split_whitespace()` loop of
`Chatbox::reflow_message`. -/
def reflow_word (max_chars : Nat) (acc : ReflowAcc) (word : String) : ReflowAcc :=
  let word_chars := Chatbox.count_chars word
  let acc :=
    if acc.chars_added ≠ 0 ∧ acc.chars_added + word_chars > max_chars ∧
        word_chars ≤ max_chars then
      ReflowAcc.mk (acc.texts ++ [(true, acc.s)]) "" 0
    else acc
  if word_chars > max_chars then
    let acc := word.toList.foldl (reflow_long_char max_chars) acc
    if acc.s ≠ "" then ReflowAcc.mk acc.texts (acc.s.push ' ') (acc.chars_added + 1)
    else acc
  else
    let acc := word.toList.foldl
      (fun a ch => ReflowAcc.mk a.texts (a.s.push ch) (a.chars_added + 1)) acc
    if acc.chars_added + 1 ≤ max_chars then
      ReflowAcc.mk acc.texts (acc.s.push ' ') (acc.chars_added + 1)
    else acc

/-- The final `texts.back_mut()` step of `Chatbox::reflow_message`: the last
segment is flagged as having no continuation. -/
def mark_last_segment : List (Bool × String) → List (Bool × String)
  | [] => []
  | [(_, t)] => [(false, t)]
  | x :: rest => x :: mark_last_segment rest

/-- The `(width / font_info.char_dimensions.x) as usize` computation of
`Chatbox::reflow_message` (the cast truncates, clamping negatives to zero). -/
def max_chars_per_line (width : Rat) (font_info : FontInfo) : Nat :=
  (Rat.floor (width / font_info.char_width)).toNat

/-- Wrapping core of `Chatbox::reflow_message`, factored over the computed
`max_chars_per_line` count. -/
def reflow_chars (max_chars : Nat) (msg : String) : List (Bool × String) :=
  let acc := (split_whitespace msg).foldl (reflow_word max_chars) (ReflowAcc.mk [] "" 0)
  let texts := if acc.s ≠ "" then acc.texts ++ [(true, acc.s)] else acc.texts
  mark_last_segment texts

/-- From `Chatbox::reflow_message`: breaks a message into wrapped segments that
the chatbox draws as lines. -/
def Chatbox.reflow_message (msg : String) (width : Rat) (font_info : FontInfo) :
    List (Bool × String) :=
  reflow_chars (max_chars_per_line width font_info) msg

/-- The `while self.messages.len() > self.history_lines` eviction loop of
`Chatbox::add_message`: pops the oldest message and removes the leading wrapped
group (the run of `has_more` segments plus one terminating segment). -/
def trim_history (history_lines : Nat) :
    List String → List (Bool × String) → List String × List (Bool × String)
  | [], wrapped => ([], wrapped)
  | m :: ms, wrapped =>
    if history_lines < (m :: ms).length then
      let count := (wrapped.takeWhile (fun e => e.1)).length
      trim_history history_lines ms (wrapped.drop (count + 1))
    else (m :: ms, wrapped)

/-- From `Chatbox::add_message`: wraps the new message, appends it, and evicts
history beyond `history_lines`. -/
def Chatbox.add_message (cb : Chatbox) (msg : String) : Chatbox :=
  let texts := Chatbox.reflow_message msg cb.dimensions.w cb.font_info
  let wrapped := cb.wrapped ++ texts
  let messages := cb.messages ++ [msg]
  let trimmed := trim_history cb.history_lines messages wrapped
  { cb with messages := trimmed.1, wrapped := trimmed.2 }

/-- From `Chatbox::reflow_messages`: clears `wrapped` and re-wraps every stored
message at the current width. -/
def Chatbox.reflow_messages (cb : Chatbox) : Chatbox :=
  { cb with
    wrapped := cb.messages.foldl
      (fun w m => w ++ Chatbox.reflow_message m cb.dimensions.w cb.font_info) [] }

/-- From `Chatbox::set_size` (the `Widget` impl): rejects a zero width or
height, otherwise replaces the dimensions and re-wraps when the width changed.
The `&mut self` receiver plus `UIResult<()>` return is modelled as a pair. -/
def Chatbox.set_size (cb : Chatbox) (new_dims : Rect) : Chatbox × Except UIError Unit :=
  if new_dims.w = 0 ∨ new_dims.h = 0 then
    (cb, Except.error
      (UIError.invalidDimensions "Cannot set the size to a width or height of zero"))
  else
    let old_dims := cb.dimensions
    let cb2 := { cb with dimensions := new_dims }
    if old_dims.w ≠ new_dims.w then (cb2.reflow_messages, Except.ok ())
    else (cb2, Except.ok ())

/-- Removal of trailing whitespace from a segment (Rust `str::trim_end`), used
to state line-width properties about wrapped segments. -/
def trim_end (s : String) : String :=
  ((s.toList.reverse.dropWhile Char.isWhitespace).reverse).asString

end Conwayste

namespace Netwayste

/-- Modelled from the spec: the netwaystev2 filter implementation (the `Filter`
engine, its `Session` state and the protocol types) is not under src/; only its
test file src/netwaystev2/src/filter/tests/time_advance_tests.rs is. A remote
endpoint identity (spec GLOSSARY). -/
abbrev Endpoint := Nat

/-- Modelled from the spec: the application-defined request payloads named by
the spec and its test (`Connect`, `KeepAlive`), plus a stand-in for other
post-handshake actions. -/
inductive RequestAction where
  | connect (name : String) (client_version : String)
  | keepAlive (latest_response_ack : Nat)
  | gameAction (payload : Nat)
deriving DecidableEq

/-- Modelled from the spec: the response codes named by the spec
(`LoggedIn`, `IncompatibleVersion`, the authentication-failure rejection). -/
inductive ResponseCode where
  | loggedIn (cookie : String) (server_version : String)
  | incompatibleVersion
  | unauthorized
deriving DecidableEq

/-- Modelled from the spec: the wire envelope, spec section 3
(`Request{sequence, response_ack, cookie, action}` and
`Response{sequence, request_ack, code}`). -/
inductive Packet where
  | request (sequence : Nat) (response_ack : Option Nat) (cookie : Option String)
      (action : RequestAction)
  | response (sequence : Nat) (request_ack : Option Nat) (code : ResponseCode)
deriving DecidableEq

/-- Modelled from the spec: the connection phases of a Session, spec section 3. -/
inductive Phase where
  | unauthenticated
  | connecting
  | established
  | closing
deriving DecidableEq

/-- Modelled from the spec: one `inflight` record — a sent packet awaiting
acknowledgment, keyed by a transport-tracking id, spec section 3. -/
structure InflightEntry where
  tid : Nat
  sequence : Nat
  send_time : Nat
  retry_count : Nat
  packet : Packet
deriving DecidableEq

/-- Modelled from the spec: the per-endpoint Session record, spec section 3. -/
structure Session where
  phase : Phase
  next_send_seq : Nat
  peer_ack_seq : Nat
  highest_recv_seq : Option Nat
  cookie : Option String
  inflight : List InflightEntry
deriving DecidableEq

/-- Modelled from the spec: a Session as created on first observing an
endpoint in server mode (Unauthenticated, no history; sequence counters start
so that the first packet sent carries sequence 1, as the test asserts). -/
def Session.fresh : Session :=
  Session.mk Phase.unauthenticated 1 0 none none []

/-- Modelled from the spec: the classification of an inbound sequence number,
spec section 4.2. -/
inductive SeqClass where
  | isNew
  | duplicate
  | outOfOrder
deriving DecidableEq

/-- Modelled from the spec: `observe_inbound(seq, ack)` classification — New
when `seq == highest_recv_seq + 1` or first packet ever, Duplicate when
`seq <= highest_recv_seq`, OutOfOrder otherwise (spec section 4.2). -/
def Session.observe_inbound (s : Session) (seq : Nat) : SeqClass :=
  match s.highest_recv_seq with
  | none => SeqClass.isNew
  | some h =>
    if seq ≤ h then SeqClass.duplicate
    else if seq = h + 1 then SeqClass.isNew
    else SeqClass.outOfOrder

/-- Modelled from the spec: the sweep inside `acknowledge(ack_seq)` — walks the
`inflight` set, keeps entries with a greater sequence and collects the tracking
id of every entry with `sequence <= ack_seq` (spec section 4.2). -/
def ackSweep (ack : Nat) : List InflightEntry → List InflightEntry × List Nat
  | [] => ([], [])
  | e :: rest =>
    let r := ackSweep ack rest
    if e.sequence ≤ ack then (r.1, e.tid :: r.2) else (e :: r.1, r.2)

/-- Modelled from the spec: `acknowledge(ack_seq)` — removes every `inflight`
entry with `sequence <= ack_seq`, returning the dropped tracking ids, and
advances `peer_ack_seq` (spec sections 3 and 4.2). -/
def Session.acknowledge (s : Session) (ack : Nat) : Session × List Nat :=
  let r := ackSweep ack s.inflight
  ({ s with inflight := r.1, peer_ack_seq := max s.peer_ack_seq ack }, r.2)

/-- Modelled from the spec: `register_outbound(packet)` — stamps the next send
sequence on the outbound packet, stores it in `inflight` under a fresh
transport-tracking id, and advances the sequence counter (spec section 4.2). -/
def Session.register_outbound (s : Session) (now : Nat) (tid : Nat)
    (mk : Nat → Packet) : Session × InflightEntry :=
  let seq := s.next_send_seq
  let entry := InflightEntry.mk tid seq now 0 (mk seq)
  ({ s with next_send_seq := seq + 1, inflight := s.inflight ++ [entry] }, entry)

/-- Modelled from the spec: engine configuration — the version-compatibility
policy, the retry interval and the maximum retry count are configuration, not
hardcoded (spec sections 4.3 and 5). -/
structure FilterConfig where
  is_version_supported : String → Bool
  retry_interval : Nat
  max_retries : Nat

/-- Modelled from the spec: whether an `inflight` entry's age exceeds the retry
interval (spec section 4.2, `due_for_retry`). -/
def InflightEntry.is_due (e : InflightEntry) (now interval : Nat) : Bool :=
  e.send_time + interval < now

/-- Modelled from the spec: whether some due `inflight` entry is past the
configured maximum retry count (spec section 3: past a maximum retry count the
endpoint is marked failed). -/
def Session.has_exhausted (s : Session) (cfg : FilterConfig) (now : Nat) : Bool :=
  s.inflight.any (fun e => e.is_due now cfg.retry_interval && cfg.max_retries ≤ e.retry_count)

/-- Modelled from the spec: the retransmission sweep — every due entry is
resent with the same sequence number, a fresh transport-tracking id and
`retry_count + 1`; the others are untouched (spec section 3). Returns the next
fresh tid, the updated `inflight` set and the (packet, tid) resends. -/
def retrySweep (now interval : Nat) : Nat → List InflightEntry → Nat × List InflightEntry × List (Packet × Nat)
  | tid, [] => (tid, [], [])
  | tid, e :: rest =>
    if e.is_due now interval then
      let e2 := InflightEntry.mk tid e.sequence now (e.retry_count + 1) e.packet
      let r := retrySweep now interval (tid + 1) rest
      (r.1, e2 :: r.2.1, (e.packet, tid) :: r.2.2)
    else
      let r := retrySweep now interval tid rest
      (r.1, e :: r.2.1, r.2.2)

/-- Modelled from the spec: the engine mode (spec section 6). -/
inductive FilterMode where
  | server
  | client
deriving DecidableEq

/-- Modelled from the spec: the transport command contract, spec section 6 —
`SendPackets{endpoint, packets, packet_infos}` (one tracking id per packet,
same order) and `DropPacket{endpoint, tid}`. -/
inductive TransportCmd where
  | sendPackets (endpoint : Endpoint) (packets : List Packet) (tids : List Nat)
  | dropPacket (endpoint : Endpoint) (tid : Nat)
deriving DecidableEq

/-- Modelled from the spec: the notices the engine sends up to the application
layer, spec section 4.4. -/
inductive FilterNotice where
  | newRequestAction (endpoint : Endpoint) (action : RequestAction)
  | endpointFailed (endpoint : Endpoint)
deriving DecidableEq

/-- Modelled from the spec: the engine-wide state — the mapping from endpoint
to Session plus the fresh tracking-id and cookie counters (spec section 3;
tracking ids are transport-assigned, modelled here as a counter so that every
send attempt gets a fresh id). -/
structure FilterState where
  mode : FilterMode
  sessions : List (Endpoint × Session)
  next_tid : Nat
  next_cookie : Nat
deriving DecidableEq

/-- Modelled from the spec: the engine as constructed, before any packet is
observed (spec section 6). -/
def FilterState.start (mode : FilterMode) : FilterState :=
  FilterState.mk mode [] 0 0

/-- Modelled from the spec: lookup in the endpoint-to-Session mapping. -/
def lookupSession : List (Endpoint × Session) → Endpoint → Option Session
  | [], _ => none
  | kv :: rest, ep => if kv.1 = ep then some kv.2 else lookupSession rest ep

/-- Modelled from the spec: update (or insert) in the endpoint-to-Session
mapping. -/
def updateSession : List (Endpoint × Session) → Endpoint → Session → List (Endpoint × Session)
  | [], ep, s => [(ep, s)]
  | kv :: rest, ep, s =>
    if kv.1 = ep then (ep, s) :: rest else kv :: updateSession rest ep s

/-- Modelled from the spec: a minted session cookie (spec section 4.3: on a
successful Connect a session cookie is minted; made non-empty by
construction). -/
def mintCookie (n : Nat) : String :=
  "cookie" ++ toString n

/-- Modelled from the spec: processing of a piggy-backed acknowledgment —
`peer_ack_seq` advances and every covered `inflight` entry is evicted, one
`DropPacket` per evicted entry carrying its original tracking id (spec
section 4.3, Established). -/
def processAck (ep : Endpoint) (s : Session) (ack : Option Nat) :
    Session × List TransportCmd :=
  match ack with
  | none => (s, [])
  | some a =>
    let r := s.acknowledge a
    (r.1, r.2.map (fun tid => TransportCmd.dropPacket ep tid))

/-- Modelled from the spec: server-mode handling of an inbound request that is
not a duplicate — the session's `highest_recv_seq` has already been advanced;
dispatches on the action: a Connect is version-checked (minting a cookie and
surfacing the action on success, rejecting with IncompatibleVersion
otherwise); a KeepAlive carries no new action but still acknowledges; any
other action needs the session cookie and is surfaced as `NewRequestAction`
(spec section 4.3). -/
def handleFreshRequest (cfg : FilterConfig) (st : FilterState) (ep : Endpoint)
    (seq : Nat) (response_ack : Option Nat) (pkt_cookie : Option String)
    (action : RequestAction) (s1 : Session) :
    FilterState × List TransportCmd × List FilterNotice :=
  let ackd := processAck ep s1 response_ack
  let s2 := ackd.1
  let drops := ackd.2
  match action with
  | RequestAction.connect _name client_version =>
    if cfg.is_version_supported client_version then
      let s3 := { s2 with phase := Phase.connecting, cookie := some (mintCookie st.next_cookie) }
      ({ st with sessions := updateSession st.sessions ep s3,
                 next_cookie := st.next_cookie + 1 },
       drops, [FilterNotice.newRequestAction ep action])
    else
      let pkt := Packet.response s2.next_send_seq (some seq) ResponseCode.incompatibleVersion
      let s3 := { s2 with next_send_seq := s2.next_send_seq + 1 }
      ({ st with sessions := updateSession st.sessions ep s3, next_tid := st.next_tid + 1 },
       drops ++ [TransportCmd.sendPackets ep [pkt] [st.next_tid]], [])
  | RequestAction.keepAlive latest_response_ack =>
    let ackd2 := processAck ep s2 (some latest_response_ack)
    ({ st with sessions := updateSession st.sessions ep ackd2.1 },
     drops ++ ackd2.2, [])
  | RequestAction.gameAction _ =>
    if pkt_cookie = s2.cookie ∧ s2.cookie ≠ none then
      ({ st with sessions := updateSession st.sessions ep s2 },
       drops, [FilterNotice.newRequestAction ep action])
    else
      let pkt := Packet.response s2.next_send_seq (some seq) ResponseCode.unauthorized
      let s3 := { s2 with next_send_seq := s2.next_send_seq + 1 }
      ({ st with sessions := updateSession st.sessions ep s3, next_tid := st.next_tid + 1 },
       drops ++ [TransportCmd.sendPackets ep [pkt] [st.next_tid]], [])

/-- Modelled from the spec: server-mode handling of one
`TransportNotice::PacketDelivery` — a session is created the moment an
endpoint is first observed; the sequence is classified per
`observe_inbound`; a Duplicate is never delivered to the application; a
non-duplicate advances `highest_recv_seq` and is dispatched (spec
sections 4.2 and 4.3; inbound `Response` packets would be the client role,
which only differs in handshake direction, and are discarded here). -/
def handlePacketDelivery (cfg : FilterConfig) (st : FilterState) (ep : Endpoint)
    (p : Packet) : FilterState × List TransportCmd × List FilterNotice :=
  match p with
  | Packet.response _ _ _ => (st, [], [])
  | Packet.request seq response_ack pkt_cookie action =>
    let s0 := (lookupSession st.sessions ep).getD Session.fresh
    match s0.observe_inbound seq with
    | SeqClass.duplicate => (st, [], [])
    | _ =>
      let s1 := { s0 with highest_recv_seq := some (max (s0.highest_recv_seq.getD 0) seq) }
      handleFreshRequest cfg st ep seq response_ack pkt_cookie action s1

/-- Modelled from the spec: handling of the application command
`SendResponseCode{endpoint, code}` — the engine stamps the response with the
next response-sequence (piggy-backing `request_ack`), stores it in `inflight`
and emits one `SendPackets` transport command; a `LoggedIn` code moves the
session from Connecting to Established (spec section 4.3). -/
def handleSendResponseCode (st : FilterState) (now : Nat) (ep : Endpoint)
    (code : ResponseCode) : FilterState × List TransportCmd :=
  match lookupSession st.sessions ep with
  | none => (st, [])
  | some s =>
    let r := s.register_outbound now st.next_tid
      (fun seq => Packet.response seq s.highest_recv_seq code)
    let s3 :=
      match code with
      | ResponseCode.loggedIn _ _ => { r.1 with phase := Phase.established }
      | _ => r.1
    ({ st with sessions := updateSession st.sessions ep s3, next_tid := st.next_tid + 1 },
     [TransportCmd.sendPackets ep [r.2.packet] [r.2.tid]])

/-- Modelled from the spec: the periodic retry scan for one session — a
session already Closing is skipped; when some due entry is past the maximum
retry count the endpoint fails once (one `EndpointFailed` notice) and the
session transitions to Closing; otherwise every due entry is retransmitted
with the same sequence and a fresh tracking id (spec sections 4.3 and 7). -/
def tickSession (cfg : FilterConfig) (now : Nat) (tid : Nat) (ep : Endpoint)
    (s : Session) : Nat × Session × List TransportCmd × List FilterNotice :=
  match s.phase with
  | Phase.closing => (tid, s, [], [])
  | _ =>
    if s.has_exhausted cfg now then
      (tid, { s with phase := Phase.closing }, [], [FilterNotice.endpointFailed ep])
    else
      let r := retrySweep now cfg.retry_interval tid s.inflight
      (r.1, { s with inflight := r.2.1 },
       r.2.2.map (fun pt => TransportCmd.sendPackets ep [pt.1] [pt.2]), [])

/-- Modelled from the spec: the retry scan over every session, threading the
fresh tracking-id counter. -/
def tickSessions (cfg : FilterConfig) (now : Nat) :
    Nat → List (Endpoint × Session) → Nat × List (Endpoint × Session) × List TransportCmd × List FilterNotice
  | tid, [] => (tid, [], [], [])
  | tid, kv :: rest =>
    let r := tickSession cfg now tid kv.1 kv.2
    let rr := tickSessions cfg now r.1 rest
    (rr.1, (kv.1, r.2.1) :: rr.2.1, r.2.2.1 ++ rr.2.2.1, r.2.2.2 ++ rr.2.2.2)

/-- Modelled from the spec: one periodic retry tick of the whole engine (spec
section 4.3, main loop responsibility 3). -/
def engineTick (cfg : FilterConfig) (now : Nat) (st : FilterState) :
    FilterState × List TransportCmd × List FilterNotice :=
  let r := tickSessions cfg now st.next_tid st.sessions
  ({ st with sessions := r.2.1, next_tid := r.1 }, r.2.2.1, r.2.2.2)

/-- Modelled from the spec: registering a list of outbound packets for one
session in order, each under the next fresh tracking id (spec section 4.2,
`register_outbound`, iterated). -/
def registerMany (s : Session) (now : Nat) (tid : Nat) : List (Nat → Packet) → Session
  | [] => s
  | mk :: rest => registerMany (s.register_outbound now tid mk).1 now (tid + 1) rest

end Netwayste

section Validation

open Conwayste

example : split_whitespace "what a great game" = ["what", "a", "great", "game"] := by decide

example : (reflow_chars 20 "what a great game").map (fun e => trim_end e.2) =
    ["what a great game"] := by decide

example : (reflow_chars 12 "what a great game").map (fun e => trim_end e.2) =
    ["what a great", "game"] := by decide

example : (reflow_chars 15 "what a great game").map (fun e => trim_end e.2) =
    ["what a great", "game"] := by decide

example : (reflow_chars 13 "what a great game").map (fun e => trim_end e.2) =
    ["what a great", "game"] := by decide

example : (reflow_chars 9 "what an entertaining game").map (fun e => trim_end e.2) =
    ["what an e", "ntertaini", "ng game"] := by decide

example : (reflow_chars 10 "entertaining").map (fun e => trim_end e.2) =
    ["entertaini", "ng"] := by decide

example : max_chars_per_line 15 (FontInfo.mk 5 5) = 3 := by
  show (Rat.floor ((15 : Rat) / 5)).toNat = 3
  rw [show Rat.floor ((15 : Rat) / 5) = ⌊(15 : Rat) / 5⌋ from rfl]
  norm_num
  rfl

example : reflow_chars 3 "abcdef ghijk" = [(true, "abc"), (false, "def ghijk ")] := by decide

end Validation

namespace Conwayste

lemma trim_history_length_le (hist : Nat) :
    ∀ (msgs : List String) (w : List (Bool × String)),
      (trim_history hist msgs w).1.length ≤ hist := by
  intro msgs
  induction msgs with
  | nil => intro w; simp [trim_history]
  | cons m ms ih =>
    intro w
    rw [trim_history]
    by_cases h : hist < (m :: ms).length
    · rw [if_pos h]; exact ih _
    · rw [if_neg h]; exact Nat.le_of_not_lt h

lemma trim_history_suffix (hist : Nat) :
    ∀ (msgs : List String) (w : List (Bool × String)),
      (trim_history hist msgs w).1 <:+ msgs := by
  intro msgs
  induction msgs with
  | nil => intro w; exact List.suffix_refl _
  | cons m ms ih =>
    intro w
    rw [trim_history]
    by_cases h : hist < (m :: ms).length
    · rw [if_pos h]; exact (ih _).trans (List.suffix_cons m ms)
    · simp only [if_neg h]; exact List.suffix_refl _

/-- C8: after `Chatbox::add_message` returns, the stored message queue holds at
most `history_lines` messages, and what remains is a suffix of the old queue
with the new message appended (so the oldest messages are the ones evicted
first). -/
theorem add_message_bounds_history (cb : Chatbox) (msg : String) :
    ((cb.add_message msg).messages.length ≤ cb.history_lines) ∧
    ((cb.add_message msg).messages <:+ cb.messages ++ [msg]) :=
  ⟨trim_history_length_le cb.history_lines (cb.messages ++ [msg]) _,
   trim_history_suffix cb.history_lines (cb.messages ++ [msg]) _⟩

/-- C9: the claimed bound fails on the code. At `max_chars_per_line = 3` the
message "abcdef ghijk" is wrapped into a segment whose content, even with its
trailing space removed, is 9 characters long: after the first long word leaves
a remainder of exactly `max_chars_per_line` characters plus an appended space,
`chars_added` exceeds the line limit and the `chars_added == max_chars_per_line`
check inside the next long word never fires again. -/
theorem reflow_message_segment_exceeds_limit :
    max_chars_per_line 15 (FontInfo.mk 5 5) = 3 ∧
    Chatbox.reflow_message "abcdef ghijk" 15 (FontInfo.mk 5 5) =
      [(true, "abc"), (false, "def ghijk ")] ∧
    3 < Chatbox.count_chars (trim_end "def ghijk ") := by
  have hm : max_chars_per_line 15 (FontInfo.mk 5 5) = 3 := by
    show (Rat.floor ((15 : Rat) / 5)).toNat = 3
    rw [show Rat.floor ((15 : Rat) / 5) = ⌊(15 : Rat) / 5⌋ from rfl]
    norm_num
    rfl
  refine ⟨hm, ?_, by decide⟩
  rw [Chatbox.reflow_message, hm]
  decide

/-- C10: `Chatbox::set_size` with a zero width or height returns the
`InvalidDimensions` error and leaves the chatbox (its dimensions and wrapped
text included) unchanged; with nonzero width and height it returns Ok,
replaces the dimensions, keeps the stored messages, and re-wraps them if and
only if the width changed. -/
theorem set_size_rejects_zero_and_rewraps_on_width_change (cb : Chatbox) (nd : Rect) :
    (nd.w = 0 ∨ nd.h = 0 →
      cb.set_size nd =
        (cb, Except.error
          (UIError.invalidDimensions "Cannot set the size to a width or height of zero"))) ∧
    (nd.w ≠ 0 → nd.h ≠ 0 →
      (cb.set_size nd).2 = Except.ok () ∧
      (cb.set_size nd).1.dimensions = nd ∧
      (cb.set_size nd).1.messages = cb.messages ∧
      (cb.set_size nd).1.history_lines = cb.history_lines ∧
      (cb.set_size nd).1.font_info = cb.font_info ∧
      (cb.set_size nd).1.wrapped =
        (if cb.dimensions.w ≠ nd.w
         then (Chatbox.mk cb.history_lines cb.messages cb.wrapped nd cb.font_info).reflow_messages.wrapped
         else cb.wrapped)) := by
  constructor
  · intro h
    rw [Chatbox.set_size, if_pos h]
  · intro hw hh
    rw [Chatbox.set_size, if_neg (by tauto)]
    by_cases hchg : cb.dimensions.w ≠ nd.w
    · rw [if_pos hchg, if_pos hchg]
      exact ⟨rfl, rfl, rfl, rfl, rfl, rfl⟩
    · rw [if_neg hchg, if_neg hchg]
      exact ⟨rfl, rfl, rfl, rfl, rfl, rfl⟩

/-- C10 witness: both branches of the theorem at concrete chatboxes. -/
theorem set_size_rejects_zero_witness :
    ((Chatbox.mk 3 ["hi"] [(false, "hi ")] (Rect.mk 0 0 10 5) (FontInfo.mk 5 5)).set_size
        (Rect.mk 1 2 0 7) =
      (Chatbox.mk 3 ["hi"] [(false, "hi ")] (Rect.mk 0 0 10 5) (FontInfo.mk 5 5),
       Except.error
         (UIError.invalidDimensions "Cannot set the size to a width or height of zero"))) ∧
    ((Chatbox.mk 3 ["hi"] [(false, "hi ")] (Rect.mk 0 0 10 5) (FontInfo.mk 5 5)).set_size
        (Rect.mk 1 2 20 7)).1.dimensions = Rect.mk 1 2 20 7 :=
  ⟨(set_size_rejects_zero_and_rewraps_on_width_change _ _).1 (Or.inl rfl),
   (((set_size_rejects_zero_and_rewraps_on_width_change _ _).2
      (by decide) (by decide)).2.1)⟩

end Conwayste

namespace Netwayste

lemma ackSweep_eq (ack : Nat) : ∀ (l : List InflightEntry),
    ackSweep ack l =
      (l.filter (fun e => decide (ack < e.sequence)),
       (l.filter (fun e => decide (e.sequence ≤ ack))).map (fun e => e.tid)) := by
  intro l
  induction l with
  | nil => rfl
  | cons e rest ih =>
    rw [ackSweep, ih]
    by_cases h : e.sequence ≤ ack
    · simp [List.filter_cons, h, Nat.not_lt.mpr h]
    · simp [List.filter_cons, h, Nat.lt_of_not_le h]

/-- C2: processing an acknowledgment `ack` removes from `inflight` exactly the
entries with `sequence <= ack` (every entry with a greater sequence stays, in
place), and emits exactly one `DropPacket` per removed entry, carrying that
entry's original tracking id. -/
theorem acknowledge_evicts_covered_and_drops_each (ep : Endpoint) (s : Session) (ack : Nat) :
    (processAck ep s (some ack)).1.inflight =
      s.inflight.filter (fun e => decide (ack < e.sequence)) ∧
    (processAck ep s (some ack)).2 =
      (s.inflight.filter (fun e => decide (e.sequence ≤ ack))).map
        (fun e => TransportCmd.dropPacket ep e.tid) := by
  refine ⟨?_, ?_⟩ <;>
    simp [processAck, Session.acknowledge, ackSweep_eq, List.map_map, Function.comp]

lemma retrySweep_maps (now interval : Nat) : ∀ (l : List InflightEntry) (tid : Nat),
    ((retrySweep now interval tid l).2.1.map (fun e => e.sequence) =
      l.map (fun e => e.sequence)) ∧
    ((retrySweep now interval tid l).2.1.map (fun e => e.packet) =
      l.map (fun e => e.packet)) ∧
    (∀ e2 ∈ (retrySweep now interval tid l).2.1, e2 ∈ l ∨ tid ≤ e2.tid) := by
  intro l
  induction l with
  | nil => intro tid; simp [retrySweep]
  | cons e rest ih =>
    intro tid
    rw [retrySweep]
    by_cases hd : e.is_due now interval = true
    · simp only [if_pos hd]
      obtain ⟨h1, h2, h3⟩ := ih (tid + 1)
      refine ⟨by simp [h1], by simp [h2], ?_⟩
      intro e2 he2
      rcases List.mem_cons.mp he2 with he | hmem
      · right; rw [he]
      · rcases h3 e2 hmem with hl | hge
        · exact Or.inl (List.mem_cons_of_mem _ hl)
        · right; omega
    · simp only [if_neg hd]
      obtain ⟨h1, h2, h3⟩ := ih tid
      refine ⟨by simp [h1], by simp [h2], ?_⟩
      intro e2 he2
      rcases List.mem_cons.mp he2 with he | hmem
      · exact Or.inl (by rw [he]; exact List.mem_cons_self _ _)
      · rcases h3 e2 hmem with hl | hge
        · exact Or.inl (List.mem_cons_of_mem _ hl)
        · exact Or.inr hge

/-- C4: a newly sent packet is stamped with the session's `next_send_seq`,
which then advances by exactly 1 (so within one endpoint's lifetime new sends
are numbered consecutively); the first packet sent on a fresh session carries
sequence 1; the retransmission sweep keeps every entry's sequence number and
payload unchanged, and a retransmitted entry is either an untouched original
or carries a tracking id distinct from every previous one. -/
theorem sequence_stamping_and_retransmission :
    (∀ (s : Session) (now tid : Nat) (mk : Nat → Packet),
      (s.register_outbound now tid mk).2.sequence = s.next_send_seq ∧
      (s.register_outbound now tid mk).1.next_send_seq = s.next_send_seq + 1) ∧
    (∀ (now tid : Nat) (mk : Nat → Packet),
      (Session.fresh.register_outbound now tid mk).2.sequence = 1) ∧
    (∀ (now interval tid : Nat) (l : List InflightEntry),
      ((retrySweep now interval tid l).2.1.map (fun e => e.sequence) =
        l.map (fun e => e.sequence)) ∧
      ((retrySweep now interval tid l).2.1.map (fun e => e.packet) =
        l.map (fun e => e.packet)) ∧
      ((∀ e ∈ l, e.tid < tid) →
        ∀ e2 ∈ (retrySweep now interval tid l).2.1,
          e2 ∈ l ∨ e2.tid ∉ l.map (fun e => e.tid))) := by
  refine ⟨fun s now tid mk => ⟨rfl, rfl⟩, fun now tid mk => rfl, ?_⟩
  intro now interval tid l
  obtain ⟨h1, h2, h3⟩ := retrySweep_maps now interval l tid
  refine ⟨h1, h2, ?_⟩
  intro hlt e2 he2
  rcases h3 e2 he2 with hl | hge
  · exact Or.inl hl
  · refine Or.inr ?_
    intro hmem
    obtain ⟨e, hel, hetid⟩ := List.mem_map.mp hmem
    have := hlt e hel
    omega

/-- C4 witness: a fresh session stamps sequence 1, and retrying a due entry
keeps sequence 4 while assigning a tracking id unseen in the old set. -/
theorem sequence_stamping_witness :
    ((Session.fresh.register_outbound 0 0
        (fun seq => Packet.request seq none none (RequestAction.gameAction 0))).2.sequence = 1) ∧
    ((retrySweep 10 2 5
        [InflightEntry.mk 1 4 0 0 (Packet.request 4 none none (RequestAction.gameAction 0))]).2.1.map
        (fun e => e.sequence) =
      [InflightEntry.mk 1 4 0 0 (Packet.request 4 none none (RequestAction.gameAction 0))].map
        (fun e => e.sequence)) ∧
    (InflightEntry.mk 5 4 10 1 (Packet.request 4 none none (RequestAction.gameAction 0)) ∈
        [InflightEntry.mk 1 4 0 0 (Packet.request 4 none none (RequestAction.gameAction 0))] ∨
      (InflightEntry.mk 5 4 10 1 (Packet.request 4 none none (RequestAction.gameAction 0))).tid ∉
        [InflightEntry.mk 1 4 0 0 (Packet.request 4 none none (RequestAction.gameAction 0))].map
          (fun e => e.tid)) :=
  ⟨sequence_stamping_and_retransmission.2.1 0 0 _,
   (sequence_stamping_and_retransmission.2.2 10 2 5 _).1,
   (sequence_stamping_and_retransmission.2.2 10 2 5 _).2.2 (by decide) _ (by decide)⟩

lemma registerMany_inflight (now : Nat) : ∀ (mks : List (Nat → Packet)) (s : Session) (tid : Nat),
    (registerMany s now tid mks).inflight.map (fun e => e.sequence) =
      s.inflight.map (fun e => e.sequence) ++ List.range' s.next_send_seq mks.length := by
  intro mks
  induction mks with
  | nil => intro s tid; simp [registerMany]
  | cons mk rest ih =>
    intro s tid
    rw [registerMany, ih]
    simp [Session.register_outbound, List.range'_succ]

/-- C5: registering N outbound packets on a fresh session before any
acknowledgment leaves exactly N `inflight` entries whose sequence numbers are
exactly 1..N, with no sequence duplicated. -/
theorem n_requests_yield_sequences_one_to_n (now tid : Nat)
    (mks : List (Nat → Packet)) (h : 1 ≤ mks.length) :
    (registerMany Session.fresh now tid mks).inflight.length = mks.length ∧
    (registerMany Session.fresh now tid mks).inflight.map (fun e => e.sequence) =
      List.range' 1 mks.length ∧
    ((registerMany Session.fresh now tid mks).inflight.map (fun e => e.sequence)).Nodup := by
  have hm := registerMany_inflight now mks Session.fresh tid
  simp only [Session.fresh, List.map_nil, List.nil_append] at hm
  refine ⟨?_, hm, ?_⟩
  · have hlen := congrArg List.length hm
    simpa using hlen
  · have hn := List.nodup_range' 1 mks.length
    rw [← hm] at hn
    exact hn

/-- C5 witness: two registered packets produce inflight sequences [1, 2]. -/
theorem n_requests_witness :
    (1 ≤ ([fun seq => Packet.request seq none none (RequestAction.gameAction 0),
           fun seq => Packet.request seq none none (RequestAction.gameAction 1)] :
          List (Nat → Packet)).length) ∧
    (registerMany Session.fresh 0 0
        [fun seq => Packet.request seq none none (RequestAction.gameAction 0),
         fun seq => Packet.request seq none none (RequestAction.gameAction 1)]).inflight.map
      (fun e => e.sequence) = [1, 2] :=
  ⟨by decide,
   by
    have h := (n_requests_yield_sequences_one_to_n 0 0
      [fun seq => Packet.request seq none none (RequestAction.gameAction 0),
       fun seq => Packet.request seq none none (RequestAction.gameAction 1)] (by decide)).2.1
    simpa using h⟩

end Netwayste

namespace Netwayste

lemma lookup_update_self : ∀ (l : List (Endpoint × Session)) (ep : Endpoint) (s : Session),
    lookupSession (updateSession l ep s) ep = some s := by
  intro l
  induction l with
  | nil => intro ep s; simp [updateSession, lookupSession]
  | cons kv rest ih =>
    intro ep s
    rw [updateSession]
    by_cases h : kv.1 = ep
    · rw [if_pos h]; simp [lookupSession]
    · rw [if_neg h]
      rw [lookupSession, if_neg h]
      exact ih ep s

lemma mintCookie_ne_empty (n : Nat) : mintCookie n ≠ "" := by
  intro hc
  have hlen : (mintCookie n).length = 0 := by rw [hc]; rfl
  rw [mintCookie, String.length_append] at hlen
  have h6 : "cookie".length = 6 := rfl
  rw [h6] at hlen
  omega

lemma processAck_highest (ep : Endpoint) (s : Session) (ack : Option Nat) :
    (processAck ep s ack).1.highest_recv_seq = s.highest_recv_seq := by
  cases ack <;> simp [processAck, Session.acknowledge]

lemma handleFreshRequest_stores (cfg : FilterConfig) (st : FilterState) (ep : Endpoint)
    (seq : Nat) (ra : Option Nat) (ck : Option String) (a : RequestAction) (s1 : Session) :
    ∃ s2, lookupSession (handleFreshRequest cfg st ep seq ra ck a s1).1.sessions ep = some s2 ∧
      s2.highest_recv_seq = s1.highest_recv_seq := by
  cases a with
  | connect name ver =>
    by_cases hv : cfg.is_version_supported ver = true
    · simp only [handleFreshRequest]
      rw [if_pos hv]
      exact ⟨_, lookup_update_self _ _ _, by simp [processAck_highest]⟩
    · simp only [handleFreshRequest]
      rw [if_neg hv]
      exact ⟨_, lookup_update_self _ _ _, by simp [processAck_highest]⟩
  | keepAlive lra =>
    simp only [handleFreshRequest]
    exact ⟨_, lookup_update_self _ _ _, by simp [processAck_highest]⟩
  | gameAction payload =>
    by_cases hck : (ck = (processAck ep s1 ra).1.cookie ∧ (processAck ep s1 ra).1.cookie ≠ none)
    · simp only [handleFreshRequest]
      rw [if_pos hck]
      exact ⟨_, lookup_update_self _ _ _, by simp [processAck_highest]⟩
    · simp only [handleFreshRequest]
      rw [if_neg hck]
      exact ⟨_, lookup_update_self _ _ _, by simp [processAck_highest]⟩

lemma handlePacketDelivery_request (cfg : FilterConfig) (st : FilterState) (ep : Endpoint)
    (seq : Nat) (ra : Option Nat) (ck : Option String) (a : RequestAction) :
    handlePacketDelivery cfg st ep (Packet.request seq ra ck a) =
      if ((lookupSession st.sessions ep).getD Session.fresh).observe_inbound seq =
          SeqClass.duplicate
      then (st, [], [])
      else
        handleFreshRequest cfg st ep seq ra ck a
          { (lookupSession st.sessions ep).getD Session.fresh with
            highest_recv_seq :=
              some (max ((((lookupSession st.sessions ep).getD Session.fresh).highest_recv_seq).getD 0)
                seq) } := by
  cases hc : ((lookupSession st.sessions ep).getD Session.fresh).observe_inbound seq <;>
    simp [handlePacketDelivery, hc]

/-- C1: in Server mode, a `Connect` with a supported version followed by a
`LoggedIn` response leaves the session Established with a non-empty cookie and
exactly one inflight entry (the LoggedIn response, sequence 1, tracked under
tid `t`); an inbound KeepAlive whose `latest_response_ack` (and piggy-backed
`response_ack`) equals that response's sequence 1 then empties the inflight
set and emits exactly one `DropPacket` carrying that same tid. -/
theorem server_handshake_then_keepalive
    (cfg : FilterConfig) (ep : Endpoint) (name ver ck sv : String) (now2 : Nat)
    (kc : Option String) (hver : cfg.is_version_supported ver = true) :
    ∃ s t,
      lookupSession
        (handleSendResponseCode
          (handlePacketDelivery cfg (FilterState.start FilterMode.server) ep
            (Packet.request 1 none none (RequestAction.connect name ver))).1
          now2 ep (ResponseCode.loggedIn ck sv)).1.sessions ep = some s ∧
      s.phase = Phase.established ∧
      (∃ c, s.cookie = some c ∧ c ≠ "") ∧
      s.inflight.map (fun e => e.tid) = [t] ∧
      (handleSendResponseCode
        (handlePacketDelivery cfg (FilterState.start FilterMode.server) ep
          (Packet.request 1 none none (RequestAction.connect name ver))).1
        now2 ep (ResponseCode.loggedIn ck sv)).2 =
        [TransportCmd.sendPackets ep
          [Packet.response 1 (some 1) (ResponseCode.loggedIn ck sv)] [t]] ∧
      (handlePacketDelivery cfg
        (handleSendResponseCode
          (handlePacketDelivery cfg (FilterState.start FilterMode.server) ep
            (Packet.request 1 none none (RequestAction.connect name ver))).1
          now2 ep (ResponseCode.loggedIn ck sv)).1
        ep (Packet.request 2 (some 1) kc (RequestAction.keepAlive 1))).2.1 =
        [TransportCmd.dropPacket ep t] ∧
      (∃ s3,
        lookupSession
          (handlePacketDelivery cfg
            (handleSendResponseCode
              (handlePacketDelivery cfg (FilterState.start FilterMode.server) ep
                (Packet.request 1 none none (RequestAction.connect name ver))).1
              now2 ep (ResponseCode.loggedIn ck sv)).1
            ep (Packet.request 2 (some 1) kc (RequestAction.keepAlive 1))).1.sessions ep =
          some s3 ∧
        s3.inflight = []) := by
  have h1 : handlePacketDelivery cfg (FilterState.start FilterMode.server) ep
      (Packet.request 1 none none (RequestAction.connect name ver)) =
      (FilterState.mk FilterMode.server
        [(ep, Session.mk Phase.connecting 1 0 (some 1) (some (mintCookie 0)) [])] 0 1,
       [], [FilterNotice.newRequestAction ep (RequestAction.connect name ver)]) := by
    simp [handlePacketDelivery, FilterState.start, lookupSession, Session.fresh,
      Session.observe_inbound, handleFreshRequest, processAck, updateSession, hver]
  have h2 : handleSendResponseCode
      (handlePacketDelivery cfg (FilterState.start FilterMode.server) ep
        (Packet.request 1 none none (RequestAction.connect name ver))).1
      now2 ep (ResponseCode.loggedIn ck sv) =
      (FilterState.mk FilterMode.server
        [(ep, Session.mk Phase.established 2 0 (some 1) (some (mintCookie 0))
            [InflightEntry.mk 0 1 now2 0
              (Packet.response 1 (some 1) (ResponseCode.loggedIn ck sv))])] 1 1,
       [TransportCmd.sendPackets ep
          [Packet.response 1 (some 1) (ResponseCode.loggedIn ck sv)] [0]]) := by
    rw [h1]
    simp [handleSendResponseCode, lookupSession, Session.register_outbound, updateSession]
  have h3 : handlePacketDelivery cfg
      (handleSendResponseCode
        (handlePacketDelivery cfg (FilterState.start FilterMode.server) ep
          (Packet.request 1 none none (RequestAction.connect name ver))).1
        now2 ep (ResponseCode.loggedIn ck sv)).1
      ep (Packet.request 2 (some 1) kc (RequestAction.keepAlive 1)) =
      (FilterState.mk FilterMode.server
        [(ep, Session.mk Phase.established 2 1 (some 2) (some (mintCookie 0)) [])] 1 1,
       [TransportCmd.dropPacket ep 0], []) := by
    rw [h2]
    simp [handlePacketDelivery, lookupSession, Session.observe_inbound, handleFreshRequest,
      processAck, Session.acknowledge, ackSweep, updateSession]
  refine ⟨Session.mk Phase.established 2 0 (some 1) (some (mintCookie 0))
      [InflightEntry.mk 0 1 now2 0 (Packet.response 1 (some 1) (ResponseCode.loggedIn ck sv))],
    0, ?_, rfl, ⟨mintCookie 0, rfl, mintCookie_ne_empty 0⟩, rfl, ?_, ?_,
    ⟨Session.mk Phase.established 2 1 (some 2) (some (mintCookie 0)) [], ?_, rfl⟩⟩
  · rw [h2]; simp [lookupSession]
  · rw [h2]
  · rw [h3]
  · rw [h3]; simp [lookupSession]

/-- C1 witness: the handshake theorem at the reference test's concrete values
(endpoint 7, client version "0.3.2", a policy accepting every version). -/
theorem server_handshake_witness :
    ∃ s t,
      lookupSession
        (handleSendResponseCode
          (handlePacketDelivery (FilterConfig.mk (fun _ => true) 2 3)
            (FilterState.start FilterMode.server) 7
            (Packet.request 1 none none (RequestAction.connect "Sheeana" "0.3.2"))).1
          5 7 (ResponseCode.loggedIn "fakecookie" "1.2.3.4.5")).1.sessions 7 = some s ∧
      s.phase = Phase.established ∧
      (∃ c, s.cookie = some c ∧ c ≠ "") ∧
      s.inflight.map (fun e => e.tid) = [t] := by
  obtain ⟨s, t, ha, hb, hc, hd, _⟩ :=
    server_handshake_then_keepalive (FilterConfig.mk (fun _ => true) 2 3) 7
      "Sheeana" "0.3.2" "fakecookie" "1.2.3.4.5" 5 (some "fakecookie") rfl
  exact ⟨s, t, ha, hb, hc, hd⟩

/-- C3: an inbound request whose sequence is classified Duplicate for the
existing session is a complete no-op — in particular it produces no
`NewRequestAction` notice; and after any delivery that did produce a
`NewRequestAction` notice, a second delivery of the same sequence to that
endpoint produces no notice at all. -/
theorem duplicate_request_never_notifies :
    (∀ (cfg : FilterConfig) (st : FilterState) (ep : Endpoint) (seq : Nat)
        (ra : Option Nat) (ck : Option String) (a : RequestAction) (sess : Session),
      lookupSession st.sessions ep = some sess →
      sess.observe_inbound seq = SeqClass.duplicate →
      handlePacketDelivery cfg st ep (Packet.request seq ra ck a) = (st, [], [])) ∧
    (∀ (cfg : FilterConfig) (st : FilterState) (ep : Endpoint) (seq : Nat)
        (ra ra2 : Option Nat) (ck ck2 : Option String) (a a2 a0 : RequestAction),
      FilterNotice.newRequestAction ep a0 ∈
        (handlePacketDelivery cfg st ep (Packet.request seq ra ck a)).2.2 →
      (handlePacketDelivery cfg
          (handlePacketDelivery cfg st ep (Packet.request seq ra ck a)).1 ep
          (Packet.request seq ra2 ck2 a2)).2.2 = []) := by
  constructor
  · intro cfg st ep seq ra ck a sess hlk hdup
    rw [handlePacketDelivery_request, hlk]
    simp [hdup]
  · intro cfg st ep seq ra ra2 ck ck2 a a2 a0 hmem
    by_cases hdup : ((lookupSession st.sessions ep).getD Session.fresh).observe_inbound seq =
        SeqClass.duplicate
    · rw [handlePacketDelivery_request, if_pos hdup] at hmem
      simp at hmem
    · have hfirst : handlePacketDelivery cfg st ep (Packet.request seq ra ck a) =
          handleFreshRequest cfg st ep seq ra ck a
            { (lookupSession st.sessions ep).getD Session.fresh with
              highest_recv_seq :=
                some (max ((((lookupSession st.sessions ep).getD
                  Session.fresh).highest_recv_seq).getD 0) seq) } := by
        rw [handlePacketDelivery_request, if_neg hdup]
      obtain ⟨s2, hlk2, hh2⟩ := handleFreshRequest_stores cfg st ep seq ra ck a
        { (lookupSession st.sessions ep).getD Session.fresh with
          highest_recv_seq :=
            some (max ((((lookupSession st.sessions ep).getD
              Session.fresh).highest_recv_seq).getD 0) seq) }
      have hhs : s2.highest_recv_seq =
          some (max ((((lookupSession st.sessions ep).getD
            Session.fresh).highest_recv_seq).getD 0) seq) := by
        rw [hh2]
      have hdup2 : s2.observe_inbound seq = SeqClass.duplicate := by
        simp only [Session.observe_inbound, hhs]
        rw [if_pos (Nat.le_max_right _ _)]
      rw [hfirst, handlePacketDelivery_request, hlk2]
      simp [hdup2]

/-- C3 witness: a duplicate (sequence 3 against a session whose highest
received sequence is 5) is a no-op, and redelivering the very Connect that
produced a notice produces none the second time. -/
theorem duplicate_request_witness :
    (handlePacketDelivery (FilterConfig.mk (fun _ => true) 2 3)
      (FilterState.mk FilterMode.server
        [(0, Session.mk Phase.established 1 0 (some 5) none [])] 0 0)
      0 (Packet.request 3 none none (RequestAction.gameAction 9)) =
      (FilterState.mk FilterMode.server
        [(0, Session.mk Phase.established 1 0 (some 5) none [])] 0 0, [], [])) ∧
    ((handlePacketDelivery (FilterConfig.mk (fun _ => true) 2 3)
        (handlePacketDelivery (FilterConfig.mk (fun _ => true) 2 3)
          (FilterState.start FilterMode.server) 7
          (Packet.request 1 none none (RequestAction.connect "n" "v"))).1
        7 (Packet.request 1 none none (RequestAction.connect "n" "v"))).2.2 = []) :=
  ⟨duplicate_request_never_notifies.1 (FilterConfig.mk (fun _ => true) 2 3)
      (FilterState.mk FilterMode.server
        [(0, Session.mk Phase.established 1 0 (some 5) none [])] 0 0)
      0 3 none none (RequestAction.gameAction 9)
      (Session.mk Phase.established 1 0 (some 5) none []) (by decide) (by decide),
   duplicate_request_never_notifies.2 (FilterConfig.mk (fun _ => true) 2 3)
      (FilterState.start FilterMode.server) 7 1 none none none none
      (RequestAction.connect "n" "v") (RequestAction.connect "n" "v")
      (RequestAction.connect "n" "v") (by decide)⟩

end Netwayste

namespace Netwayste

lemma lookup_none_of_not_key : ∀ (l : List (Endpoint × Session)) (ep : Endpoint),
    ep ∉ l.map Prod.fst → lookupSession l ep = none := by
  intro l
  induction l with
  | nil => intro ep _; rfl
  | cons kv rest ih =>
    intro ep h
    simp only [List.map_cons, List.mem_cons, not_or] at h
    rw [lookupSession, if_neg (fun he => h.1 he.symm)]
    exact ih ep h.2

lemma tickSession_notices (cfg : FilterConfig) (now tid : Nat) (ep : Endpoint) (s : Session) :
    (tickSession cfg now tid ep s).2.2.2 =
      if s.phase ≠ Phase.closing ∧ s.has_exhausted cfg now = true
      then [FilterNotice.endpointFailed ep] else [] := by
  cases hp : s.phase <;>
    by_cases he : s.has_exhausted cfg now = true <;>
      simp [tickSession, hp, he]

lemma tickSession_session (cfg : FilterConfig) (now tid : Nat) (ep : Endpoint) (s : Session) :
    s.phase ≠ Phase.closing → s.has_exhausted cfg now = true →
    (tickSession cfg now tid ep s).2.1 = { s with phase := Phase.closing } := by
  intro hp he
  cases hph : s.phase with
  | closing => exact absurd hph hp
  | unauthenticated => simp [tickSession, hph, he]
  | connecting => simp [tickSession, hph, he]
  | established => simp [tickSession, hph, he]

lemma tickSessions_keys (cfg : FilterConfig) (now : Nat) :
    ∀ (l : List (Endpoint × Session)) (tid : Nat),
      ((tickSessions cfg now tid l).2.1).map Prod.fst = l.map Prod.fst := by
  intro l
  induction l with
  | nil => intro tid; rfl
  | cons kv rest ih =>
    intro tid
    simp only [tickSessions, List.map_cons]
    rw [ih]

lemma tickSessions_count (cfg : FilterConfig) (now : Nat) (ep : Endpoint) :
    ∀ (l : List (Endpoint × Session)) (tid : Nat), ((l.map Prod.fst).Nodup) →
    ((tickSessions cfg now tid l).2.2.2.count (FilterNotice.endpointFailed ep)) =
      (match lookupSession l ep with
       | none => 0
       | some s => if s.phase ≠ Phase.closing ∧ s.has_exhausted cfg now = true
                   then 1 else 0) := by
  intro l
  induction l with
  | nil => intro tid _; rfl
  | cons kv rest ih =>
    intro tid hnd
    simp only [List.map_cons, List.nodup_cons] at hnd
    simp only [tickSessions]
    rw [List.count_append, tickSession_notices]
    by_cases hk : kv.1 = ep
    · rw [ih _ hnd.2, lookup_none_of_not_key rest ep (by rw [← hk]; exact hnd.1)]
      by_cases hc : (kv.2.phase ≠ Phase.closing ∧ kv.2.has_exhausted cfg now = true) <;>
        simp [lookupSession, hk, hc]
    · rw [ih _ hnd.2]
      have hz : List.count (FilterNotice.endpointFailed ep)
          (if kv.2.phase ≠ Phase.closing ∧ kv.2.has_exhausted cfg now = true
           then [FilterNotice.endpointFailed kv.1] else []) = 0 := by
        split_ifs <;> simp [List.count_cons, hk]
      rw [hz, lookupSession, if_neg hk]
      omega

lemma tickSessions_lookup_some (cfg : FilterConfig) (now : Nat) (ep : Endpoint) :
    ∀ (l : List (Endpoint × Session)) (tid : Nat) (sess : Session),
      lookupSession l ep = some sess →
      ∃ tid2, lookupSession (tickSessions cfg now tid l).2.1 ep =
        some (tickSession cfg now tid2 ep sess).2.1 := by
  intro l
  induction l with
  | nil => intro tid sess h; cases h
  | cons kv rest ih =>
    intro tid sess h
    rw [lookupSession] at h
    simp only [tickSessions]
    by_cases hk : kv.1 = ep
    · rw [if_pos hk] at h
      injection h with h
      exact ⟨tid, by simp [lookupSession, hk, h]⟩
    · rw [if_neg hk] at h
      obtain ⟨tid2, h2⟩ := ih (tickSession cfg now tid kv.1 kv.2).1 sess h
      exact ⟨tid2, by rw [lookupSession, if_neg hk]; exact h2⟩

/-- C6: when an endpoint's session (not yet Closing) holds an inflight entry
that is due and past the configured maximum retry count, one engine retry tick
emits exactly one `EndpointFailed` notice for that endpoint and moves the
session to the Closing phase; a further tick emits no `EndpointFailed` for
that endpoint at all, so the failure is reported once, not per retry and not
repeatedly. -/
theorem retry_exhaustion_fails_once
    (cfg : FilterConfig) (now now2 : Nat) (st : FilterState) (ep : Endpoint) (sess : Session)
    (hlk : lookupSession st.sessions ep = some sess)
    (hnd : (st.sessions.map Prod.fst).Nodup)
    (hph : sess.phase ≠ Phase.closing)
    (hex : sess.has_exhausted cfg now = true) :
    ((engineTick cfg now st).2.2.count (FilterNotice.endpointFailed ep) = 1) ∧
    (∃ s2, lookupSession (engineTick cfg now st).1.sessions ep = some s2 ∧
      s2.phase = Phase.closing) ∧
    ((engineTick cfg now2 (engineTick cfg now st).1).2.2.count
      (FilterNotice.endpointFailed ep) = 0) := by
  have hcount := tickSessions_count cfg now ep st.sessions st.next_tid hnd
  rw [hlk] at hcount
  obtain ⟨tid2, hlk2⟩ := tickSessions_lookup_some cfg now ep st.sessions st.next_tid sess hlk
  have hsess2 := tickSession_session cfg now tid2 ep sess hph hex
  have hlk2' : lookupSession (engineTick cfg now st).1.sessions ep =
      some (tickSession cfg now tid2 ep sess).2.1 := by
    simp only [engineTick]
    exact hlk2
  refine ⟨?_, ⟨(tickSession cfg now tid2 ep sess).2.1, hlk2', by rw [hsess2]⟩, ?_⟩
  · simp only [engineTick]
    simpa [hph, hex] using hcount
  · have hnd2 : (((engineTick cfg now st).1.sessions).map Prod.fst).Nodup := by
      simp only [engineTick]
      rw [tickSessions_keys]
      exact hnd
    have hcount2 := tickSessions_count cfg now2 ep (engineTick cfg now st).1.sessions
      (engineTick cfg now st).1.next_tid hnd2
    rw [hlk2', hsess2] at hcount2
    simp only [engineTick] at hcount2 ⊢
    rw [hcount2]
    simp

/-- C6 witness: a session at endpoint 4 whose only inflight entry is due
(sent at time 0, interval 2, now 10) with `retry_count` 3 at limit 3: the
tick emits exactly one `EndpointFailed`. -/
theorem retry_exhaustion_witness :
    ((engineTick (FilterConfig.mk (fun _ => true) 2 3) 10
        (FilterState.mk FilterMode.server
          [(4, Session.mk Phase.established 2 0 (some 1) none
            [InflightEntry.mk 0 1 0 3
              (Packet.response 1 none ResponseCode.incompatibleVersion)])] 9 0)).2.2.count
      (FilterNotice.endpointFailed 4) = 1) ∧
    ((engineTick (FilterConfig.mk (fun _ => true) 2 3) 11
        (engineTick (FilterConfig.mk (fun _ => true) 2 3) 10
          (FilterState.mk FilterMode.server
            [(4, Session.mk Phase.established 2 0 (some 1) none
              [InflightEntry.mk 0 1 0 3
                (Packet.response 1 none ResponseCode.incompatibleVersion)])] 9 0)).1).2.2.count
      (FilterNotice.endpointFailed 4) = 0) :=
  ⟨(retry_exhaustion_fails_once (FilterConfig.mk (fun _ => true) 2 3) 10 11
      (FilterState.mk FilterMode.server
        [(4, Session.mk Phase.established 2 0 (some 1) none
          [InflightEntry.mk 0 1 0 3
            (Packet.response 1 none ResponseCode.incompatibleVersion)])] 9 0) 4
      (Session.mk Phase.established 2 0 (some 1) none
        [InflightEntry.mk 0 1 0 3 (Packet.response 1 none ResponseCode.incompatibleVersion)])
      (by decide) (by decide) (by decide) (by decide)).1,
   (retry_exhaustion_fails_once (FilterConfig.mk (fun _ => true) 2 3) 10 11
      (FilterState.mk FilterMode.server
        [(4, Session.mk Phase.established 2 0 (some 1) none
          [InflightEntry.mk 0 1 0 3
            (Packet.response 1 none ResponseCode.incompatibleVersion)])] 9 0) 4
      (Session.mk Phase.established 2 0 (some 1) none
        [InflightEntry.mk 0 1 0 3 (Packet.response 1 none ResponseCode.incompatibleVersion)])
      (by decide) (by decide) (by decide) (by decide)).2.2⟩

end Netwayste
